import Mathlib

/-!
Verification of the yandex-maps-mcp protocol session gateway.

The definitions below are a shallow embedding of the repository's code:
the tool catalog and helper functions of src/src/config.ts, the pure parts
of the tool handlers of src/src/handlers.ts, the dispatch and session-store
logic of the HttpTransport class bundled in src/src/handlers.ts, the
CallToolRequest handler of createMCPServer, and the legacy fallback session
resolution of server-sse.ts.  Network effects (the calls to the Yandex
geocoder and static-map services, and the SDK transport machinery) are
modelled by an explicit collaborator record of functions; everything the
gateway itself computes is translated directly.
-/

namespace YandexMapsMcp

/-- A JSON-RPC correlation id as it appears on the wire: a number, a string,
or JSON null.  JavaScript truthiness of these values is modelled by
`RpcId.truthy`. -/
inductive RpcId where
  | num (n : Int)
  | str (s : String)
  | null
deriving DecidableEq

/-- JavaScript truthiness for an id value: 0, the empty string and null are
falsy. -/
def RpcId.truthy : RpcId → Bool
  | RpcId.num n => n != 0
  | RpcId.str s => s != ""
  | RpcId.null => false

/-- One item of a CallToolResult content array: a text block or a base64
image block, as built by the handlers in src/src/handlers.ts. -/
inductive ContentItem where
  | text (text : String)
  | image (data : String) (mimeType : String)
deriving DecidableEq

/-- The CallToolResult shape of the MCP SDK: a content array plus the
in-band error marker. -/
structure CallToolResult where
  content : List ContentItem
  isError : Bool
deriving DecidableEq

/-- A named property of a tool input schema (type plus description), as in
the tool definitions of src/src/config.ts. -/
structure PropertyField where
  type : String
  description : String
deriving DecidableEq

/-- The items schema of an array-typed property (used by the placemarks
property of maps_render). -/
structure ItemsSchema where
  type : String
  properties : List (String × PropertyField)
  required : List String
deriving DecidableEq

/-- A property of a tool input schema; only array-typed properties carry an
items schema. -/
structure SchemaProperty where
  type : String
  description : String
  items : Option ItemsSchema := none
deriving DecidableEq

/-- A tool input schema: object type, named properties, required subset. -/
structure InputSchema where
  type : String
  properties : List (String × SchemaProperty)
  required : List String
deriving DecidableEq

/-- A tool descriptor: name, description, input schema
(src/src/config.ts). -/
structure Tool where
  name : String
  description : String
  inputSchema : InputSchema
deriving DecidableEq

/-- GEOCODE_TOOL of src/src/config.ts. -/
def GEOCODE_TOOL : Tool :=
  { name := "maps_geocode"
    description := "Convert an address into geographic coordinates using individual address components"
    inputSchema :=
      { type := "object"
        properties :=
          [ ("country", { type := "string", description := "The country name" })
          , ("state", { type := "string", description := "The state, region or province name" })
          , ("city", { type := "string", description := "The city or locality name" })
          , ("district", { type := "string", description := "The district or neighborhood within the city" })
          , ("street", { type := "string", description := "The street name" })
          , ("house_number", { type := "string", description := "The house or building number" })
          , ("lang", { type := "string", description := "Language code, e.g. 'ru_RU', 'en_US'" }) ]
        required := ["country", "lang"] } }

/-- REVERSE_GEOCODE_TOOL of src/src/config.ts. -/
def REVERSE_GEOCODE_TOOL : Tool :=
  { name := "maps_reverse_geocode"
    description := "Convert coordinates into an address"
    inputSchema :=
      { type := "object"
        properties :=
          [ ("latitude", { type := "number", description := "Latitude coordinate" })
          , ("longitude", { type := "number", description := "Longitude coordinate" })
          , ("lang", { type := "string", description := "Language code, e.g. 'ru_RU', 'en_US'" }) ]
        required := ["latitude", "longitude", "lang"] } }

/-- RENDER_MAP_TOOL of src/src/config.ts. -/
def RENDER_MAP_TOOL : Tool :=
  { name := "maps_render"
    description := "Render a map as a png image"
    inputSchema :=
      { type := "object"
        properties :=
          [ ("latitude", { type := "number", description := "Latitude coordinate of map center" })
          , ("longitude", { type := "number", description := "Longitude coordinate of map center" })
          , ("latitude_span", { type := "number", description := "Height of map image in degrees" })
          , ("longitude_span", { type := "number", description := "Width of map image in degrees" })
          , ("lang", { type := "string", description := "Language code, e.g. 'ru_RU', 'en_US'" })
          , ("placemarks",
              { type := "array"
                description := "Array of placemarks to display on the map"
                items := some
                  { type := "object"
                    properties :=
                      [ ("latitude", { type := "number", description := "Latitude coordinate of the placemark" })
                      , ("longitude", { type := "number", description := "Longitude coordinate of the placemark" }) ]
                    required := ["latitude", "longitude"] } }) ]
        required := ["latitude", "longitude", "latitude_span", "longitude_span", "lang"] } }

/-- MAPS_TOOLS of src/src/config.ts: the fixed three-entry catalog. -/
def MAPS_TOOLS : List Tool := [GEOCODE_TOOL, REVERSE_GEOCODE_TOOL, RENDER_MAP_TOOL]

/-- The untyped arguments object of a tools/call request.  The verified
claims only inspect the string-valued geocode components; the numeric
fields of the other tools are opaque to the gateway and are carried through
to the collaborator unchanged, so they are not enumerated here. -/
structure ToolArguments where
  country : Option String := none
  state : Option String := none
  city : Option String := none
  district : Option String := none
  street : Option String := none
  house_number : Option String := none
  lang : Option String := none
deriving DecidableEq

/-- The params object of a tools/call request. -/
structure CallParams where
  name : String
  arguments : ToolArguments
deriving DecidableEq

/-- A decoded JSON-RPC request: optional correlation id (absent models a
JavaScript undefined id field), a method string, and params. -/
structure RpcRequest where
  id : Option RpcId
  method : String
  params : CallParams
deriving DecidableEq

/-- The data field of a JSON-RPC error object as produced by this gateway:
either the offending method name (unknown method) or a diagnostic string
(internal error). -/
inductive ErrorData where
  | methodName (method : String)
  | diagnostic (s : String)
deriving DecidableEq

/-- A JSON-RPC error object: code, message, optional data. -/
structure RpcError where
  code : Int
  message : String
  data : Option ErrorData
deriving DecidableEq

/-- The result payloads the stateless dispatcher can produce. -/
inductive RpcResult where
  | initResult (protocolVersion : String) (serverName : String) (serverVersion : String)
  | toolsResult (tools : List Tool)
  | callResult (content : List ContentItem) (isError : Bool)
deriving DecidableEq

/-- The serialized JSON-RPC response envelope.  An id of none models a
field dropped by JSON serialization of an undefined value; some RpcId.null
models an explicit JSON null. -/
structure JsonResponse where
  jsonrpc : String
  id : Option RpcId
  result : Option RpcResult
  error : Option RpcError
deriving DecidableEq

/-- sendJsonResponse of HttpTransport: a 200 envelope with the given id and
a result field, and no error field. -/
def sendJsonResponse (id : Option RpcId) (result : RpcResult) : JsonResponse :=
  { jsonrpc := "2.0", id := id, result := some result, error := none }

/-- The JavaScript expression id-or-else-null used by sendJsonError: a
missing or falsy id collapses to JSON null. -/
def idOrNull : Option RpcId → RpcId
  | some i => if i.truthy then i else RpcId.null
  | none => RpcId.null

/-- sendJsonError of HttpTransport: a 200 envelope with an error object and
no result field; the id field is the request id when truthy, else null. -/
def sendJsonError (code : Int) (message : String) (data : Option ErrorData)
    (id : Option RpcId) : JsonResponse :=
  { jsonrpc := "2.0", id := some (idOrNull id), result := none
    error := some { code := code, message := message, data := data } }

/-- The tool-execution collaborator: one function per catalog tool.  Each
returns the CallToolResult it produced, or an error string when the
underlying handler raised; the real handlers live in src/src/handlers.ts
and perform network calls. -/
structure ToolEnv where
  geocode : ToolArguments → Except String CallToolResult
  reverseGeocode : ToolArguments → Except String CallToolResult
  renderMap : ToolArguments → Except String CallToolResult

/-- The tool-name dispatch shared by HttpTransport.handleToolCall and the
CallToolRequest handler of createMCPServer: a known name runs the matching
collaborator operation, an unknown name yields none. -/
def execTool (env : ToolEnv) (name : String) (args : ToolArguments) :
    Option (Except String CallToolResult) :=
  if name = "maps_geocode" then some (env.geocode args)
  else if name = "maps_reverse_geocode" then some (env.reverseGeocode args)
  else if name = "maps_render" then some (env.renderMap args)
  else none

/-- HttpTransport.handleToolCall: known tool results and the unknown-tool
fallback are both serialized through sendJsonResponse; a raised fault is
caught and converted to an in-band error envelope. -/
def handleToolCall (env : ToolEnv) (msg : RpcRequest) : JsonResponse :=
  match execTool env msg.params.name msg.params.arguments with
  | some (Except.ok r) => sendJsonResponse msg.id (RpcResult.callResult r.content r.isError)
  | some (Except.error e) =>
      sendJsonResponse msg.id
        (RpcResult.callResult [ContentItem.text ("Tool error: " ++ e)] true)
  | none =>
      sendJsonResponse msg.id
        (RpcResult.callResult [ContentItem.text ("Unknown tool: " ++ msg.params.name)] true)

/-- The CallToolRequest handler installed by createMCPServer: same dispatch,
with the unknown-tool default and the catch clause both returning an
in-band CallToolResult with the error marker set. -/
def serverCallToolHandler (env : ToolEnv) (name : String) (args : ToolArguments) :
    CallToolResult :=
  match execTool env name args with
  | some (Except.ok r) => r
  | some (Except.error e) => { content := [ContentItem.text ("Error: " ++ e)], isError := true }
  | none => { content := [ContentItem.text ("Unknown tool: " ++ name)], isError := true }

/-- The ListToolsRequest handler installed by createMCPServer. -/
def serverListTools : List Tool := MAPS_TOOLS

/-- The body of the GET tools discovery endpoint of HttpTransport. -/
def toolsDiscoveryBody : List Tool := MAPS_TOOLS

/-- HttpTransport.handleStreamableHttpPost: the stateless method dispatch
over a decoded request. -/
def handleStreamableHttpPost (env : ToolEnv) (msg : RpcRequest) : JsonResponse :=
  if msg.method = "initialize" then
    sendJsonResponse msg.id (RpcResult.initResult "2024-11-05" "mcp-server/yandex-maps" "0.1.0")
  else if msg.method = "tools/list" then
    sendJsonResponse msg.id (RpcResult.toolsResult MAPS_TOOLS)
  else if msg.method = "tools/call" then
    handleToolCall env msg
  else
    sendJsonError (-32601) "Method not found" (some (ErrorData.methodName msg.method)) msg.id

/-- An SSE transport as the session store sees it: the SDK-generated
session id is the only attribute the gateway reads. -/
structure SSETransport where
  sessionId : String
deriving DecidableEq

/-- A JavaScript-Map-like association list keyed by strings: membership
test over the keys. -/
def mapHas {α : Type} (m : List (String × α)) (k : String) : Bool :=
  m.any (fun p => p.1 == k)

/-- Map lookup: the value of the first (and, for a Map, only) entry with
the given key. -/
def mapGet {α : Type} (m : List (String × α)) (k : String) : Option α :=
  (m.find? (fun p => p.1 == k)).map Prod.snd

/-- Map set: overwrite in place when the key is present, append otherwise
(JavaScript Map insertion-order semantics). -/
def mapSet {α : Type} (m : List (String × α)) (k : String) (v : α) : List (String × α) :=
  if mapHas m k then m.map (fun p => if p.1 == k then (k, v) else p)
  else m ++ [(k, v)]

/-- Map delete: drop the entry with the given key. -/
def mapDelete {α : Type} (m : List (String × α)) (k : String) : List (String × α) :=
  m.filter (fun p => p.1 != k)

/-- The key sequence of a map. -/
def mapKeys {α : Type} (m : List (String × α)) : List String :=
  m.map Prod.fst

/-- The session store held by HttpTransport: the transports map, the
servers map (server values are opaque here), and the creation-order
sequence. -/
structure SessionStore where
  transports : List (String × SSETransport)
  servers : List (String × Unit)
  sessionOrder : List String
deriving DecidableEq

/-- The store at process start: all three containers empty. -/
def emptyStore : SessionStore :=
  { transports := [], servers := [], sessionOrder := [] }

/-- HttpTransport.storeSession: record the transport and a server under the
transport's session id and append the id to the order sequence. -/
def storeSession (s : SessionStore) (t : SSETransport) : SessionStore :=
  { transports := mapSet s.transports t.sessionId t
    servers := mapSet s.servers t.sessionId ()
    sessionOrder := s.sessionOrder ++ [t.sessionId] }

/-- HttpTransport.cleanupSession: delete the id from both maps and splice
out its first occurrence in the order sequence (a no-op when absent, as
with indexOf returning -1). -/
def cleanupSession (s : SessionStore) (sessionId : String) : SessionStore :=
  { transports := mapDelete s.transports sessionId
    servers := mapDelete s.servers sessionId
    sessionOrder := s.sessionOrder.erase sessionId }

/-- JavaScript truthiness of an optional header string: undefined and the
empty string are falsy. -/
def strTruthy : Option String → Bool
  | none => false
  | some s => s != ""

/-- HttpTransport.findTransport: a truthy explicit id is looked up
directly; with no id the sole open session is used when exactly one is
open, and otherwise the result is absent. -/
def findTransport (s : SessionStore) (sessionId : Option String) : Option SSETransport :=
  if strTruthy sessionId then mapGet s.transports (sessionId.getD "")
  else if s.sessionOrder.length = 1 then mapGet s.transports (s.sessionOrder.getD 0 "")
  else none

/-- The legacy fallback resolution of the POST message route in
server-sse.ts: explicit id, else the sole session, else the most recently
created session when several are open. -/
def legacyResolveTransport (s : SessionStore) (sessionId : Option String) :
    Option SSETransport :=
  if strTruthy sessionId then mapGet s.transports (sessionId.getD "")
  else if s.sessionOrder.length = 1 then mapGet s.transports (s.sessionOrder.getD 0 "")
  else if s.sessionOrder.length > 1 then
    mapGet s.transports (s.sessionOrder.getD (s.sessionOrder.length - 1) "")
  else none

/-- The session id seen by handleMcpPost: the mcp-session-id header, or the
x-session-id header when the former is falsy. -/
def headerSessionId (mcpId xId : Option String) : Option String :=
  if strTruthy mcpId then mcpId else xId

/-- The stateless branch of handleMcpPost: a decoded body goes to the
dispatcher; a body the JSON parser rejected is answered by the catch clause
with an internal-error envelope carrying the parser diagnostic. -/
def handleMcpPostStateless (env : ToolEnv) (body : Except String RpcRequest) : JsonResponse :=
  match body with
  | Except.ok msg => handleStreamableHttpPost env msg
  | Except.error e =>
      sendJsonError (-32603) "Internal error" (some (ErrorData.diagnostic e)) none

/-- The observable outcome of a POST to the unified endpoint: either the
message is routed to a stored session's message handler, or it is answered
synchronously with a JSON envelope. -/
inductive PostOutcome where
  | routed (t : SSETransport)
  | stateless (resp : JsonResponse)
deriving DecidableEq

/-- HttpTransport.handleMcpPost: resolve a transport via findTransport over
the combined session-id headers; route to it when found, answer statelessly
otherwise. -/
def handleMcpPost (env : ToolEnv) (s : SessionStore) (mcpId xId : Option String)
    (body : Except String RpcRequest) : PostOutcome :=
  match findTransport s (headerSessionId mcpId xId) with
  | some t => PostOutcome.routed t
  | none => PostOutcome.stateless (handleMcpPostStateless env body)

/-- The observable outcome of a DELETE to the unified endpoint: status,
body text, and the store after the request. -/
structure DeleteOutcome where
  status : Nat
  body : String
  store : SessionStore
deriving DecidableEq

/-- HttpTransport.handleMcpDelete: a truthy mcp-session-id naming a stored
transport triggers that transport's close callback - wired at session
establishment to cleanupSession - and a 200; anything else is a 404 with
the store untouched. -/
def handleMcpDelete (s : SessionStore) (sessionId : Option String) : DeleteOutcome :=
  if strTruthy sessionId && mapHas s.transports (sessionId.getD "") then
    { status := 200, body := "Session terminated"
      store := cleanupSession s (sessionId.getD "") }
  else
    { status := 404, body := "Session not found", store := s }

/-- The address-parts array of handleGeocode: the six components in source
order with undefined and empty entries filtered out, then extracted to
plain strings. -/
def geocodeAddressParts (country : String)
    (state city district street house_number : Option String) : List String :=
  (([house_number, street, district, city, state, some country] : List (Option String)).filter
      (fun part => !(part == none) && !(part == some ""))).map (fun p => p.getD "")

/-- The geocode query string of handleGeocode: the filtered parts joined
with a comma and a space. -/
def geocodeAddress (country : String)
    (state city district street house_number : Option String) : String :=
  String.intercalate ", " (geocodeAddressParts country state city district street house_number)

/-- The query parameters handleGeocode appends to the geocoder base URL, in
append order. -/
def handleGeocodeUrlParams (apiKey country lang : String)
    (state city district street house_number : Option String) : List (String × String) :=
  [ ("geocode", geocodeAddress country state city district street house_number)
  , ("format", "json")
  , ("results", "1")
  , ("lang", lang)
  , ("apikey", apiKey) ]

/-- The claimed reading of the geocode query: the comma-space join of the
components in the fixed order house_number, street, district, city, state,
country, with undefined or empty components omitted. -/
def specGeocodeQuery (country : String)
    (state city district street house_number : Option String) : String :=
  String.intercalate ", "
    (([house_number, street, district, city, state, some country] : List (Option String)).filterMap
      (fun part =>
        match part with
        | none => none
        | some s => if s = "" then none else some s))

/-- One session-store operation: a session established (storeSession) or a
session retired (cleanupSession). -/
inductive StoreOp where
  | store (t : SSETransport)
  | cleanup (id : String)
deriving DecidableEq

/-- Apply one store operation. -/
def applyOp (s : SessionStore) : StoreOp → SessionStore
  | StoreOp.store t => storeSession s t
  | StoreOp.cleanup id => cleanupSession s id

/-- Apply a sequence of store operations left to right. -/
def applyOps (s : SessionStore) (ops : List StoreOp) : SessionStore :=
  ops.foldl applyOp s

/-- A sequence of operations is valid when every stored transport carries a
session id not currently present - which the SDK guarantees by generating a
fresh unique id for every established session. -/
def validOps : SessionStore → List StoreOp → Bool
  | _, [] => true
  | s, StoreOp.store t :: rest =>
      !(mapHas s.transports t.sessionId) && validOps (storeSession s t) rest
  | s, StoreOp.cleanup id :: rest => validOps (cleanupSession s id) rest

/-- The session-store consistency invariant: both maps list exactly the
ids of the order sequence, in order, and the order sequence has no
duplicates. -/
def storeInv (s : SessionStore) : Prop :=
  mapKeys s.transports = s.sessionOrder ∧ mapKeys s.servers = s.sessionOrder ∧
    s.sessionOrder.Nodup

instance (s : SessionStore) : Decidable (storeInv s) := by
  unfold storeInv; infer_instance

/-- The store obtained by establishing the given transports in order into
an empty store. -/
def canonicalStore (ts : List SSETransport) : SessionStore :=
  { transports := ts.map (fun t => (t.sessionId, t))
    servers := ts.map (fun t => (t.sessionId, ()))
    sessionOrder := ts.map SSETransport.sessionId }

/-- A collaborator in which every tool call succeeds with a fixed text
result; used to instantiate universally quantified statements. -/
def defaultEnv : ToolEnv :=
  { geocode := fun _ => Except.ok { content := [ContentItem.text "ok"], isError := false }
    reverseGeocode := fun _ => Except.ok { content := [ContentItem.text "ok"], isError := false }
    renderMap := fun _ => Except.ok { content := [ContentItem.text "ok"], isError := false } }

/-- A collaborator in which every tool call raises; used to exercise the
catch clauses. -/
def errorEnv : ToolEnv :=
  { geocode := fun _ => Except.error "boom"
    reverseGeocode := fun _ => Except.error "boom"
    renderMap := fun _ => Except.error "boom" }

/-- A store with one open session. -/
def oneSessionStore : SessionStore := storeSession emptyStore { sessionId := "a" }

/-- A store with two open sessions, the second created last. -/
def twoSessionStore : SessionStore := storeSession oneSessionStore { sessionId := "b" }

/-- A tools/list request used for concrete instances. -/
def pingRequest : RpcRequest :=
  { id := some (RpcId.num 1), method := "tools/list", params := { name := "", arguments := {} } }

/-- A tools/call request naming a tool outside the catalog. -/
def unknownToolMsg : RpcRequest :=
  { id := some (RpcId.num 7), method := "tools/call"
    params := { name := "bogus", arguments := {} } }

/-- A tools/call request for maps_geocode. -/
def geocodeCallMsg : RpcRequest :=
  { id := some (RpcId.num 8), method := "tools/call"
    params := { name := "maps_geocode", arguments := {} } }

/-- A request with correlation id 0 and an unrecognized method. -/
def zeroIdMsg : RpcRequest :=
  { id := some (RpcId.num 0), method := "no-such/method"
    params := { name := "", arguments := {} } }

/-! Helper lemmas about the map and list primitives. -/

theorem mapHas_iff_mem {α : Type} (m : List (String × α)) (k : String) :
    mapHas m k = true ↔ k ∈ mapKeys m := by
  simp only [mapHas, mapKeys, List.any_eq_true, List.mem_map, beq_iff_eq]

theorem mapHas_eq_false_iff {α : Type} (m : List (String × α)) (k : String) :
    mapHas m k = false ↔ k ∉ mapKeys m := by
  rw [← mapHas_iff_mem]
  cases mapHas m k <;> simp

theorem mapGet_isSome {α : Type} (m : List (String × α)) (k : String) :
    (mapGet m k).isSome = mapHas m k := by
  induction m with
  | nil => rfl
  | cons p m ih =>
    cases h : (p.1 == k) with
    | false => simpa [mapGet, mapHas, List.find?, List.any, h] using ih
    | true => simp [mapGet, mapHas, List.find?, List.any, h]

theorem mapSet_fresh {α : Type} (m : List (String × α)) (k : String) (v : α)
    (h : mapHas m k = false) : mapSet m k v = m ++ [(k, v)] := by
  simp [mapSet, h]

theorem mapKeys_append_single {α : Type} (m : List (String × α)) (k : String) (v : α) :
    mapKeys (m ++ [(k, v)]) = mapKeys m ++ [k] := by
  simp [mapKeys]

theorem mapKeys_delete {α : Type} (m : List (String × α)) (k : String) :
    mapKeys (mapDelete m k) = (mapKeys m).filter (fun x => x != k) := by
  induction m with
  | nil => rfl
  | cons p m ih =>
    cases h : (p.1 != k) with
    | false => simpa [mapDelete, mapKeys, List.filter_cons, h] using ih
    | true => simpa [mapDelete, mapKeys, List.filter_cons, h] using ih

theorem filter_ne_of_not_mem (l : List String) (k : String) (h : k ∉ l) :
    l.filter (fun x => x != k) = l := by
  induction l with
  | nil => rfl
  | cons a l ih =>
    simp only [List.mem_cons, not_or] at h
    have ha : (a != k) = true := by
      simp only [bne_iff_ne, ne_eq]
      exact fun e => h.1 e.symm
    rw [List.filter_cons, if_pos ha, ih h.2]

theorem erase_eq_filter_ne (l : List String) (k : String) (h : l.Nodup) :
    l.erase k = l.filter (fun x => x != k) := by
  induction l with
  | nil => rfl
  | cons a l ih =>
    rw [List.nodup_cons] at h
    by_cases he : a = k
    · subst he
      simp only [List.erase_cons, List.filter_cons, beq_self_eq_true, if_true,
        bne_self_eq_false, Bool.false_eq_true, if_false]
      exact (filter_ne_of_not_mem l a h.1).symm
    · have h1 : (a == k) = false := by simp [he]
      have h2 : (a != k) = true := by simp [bne, h1]
      simp only [List.erase_cons, List.filter_cons, h1, h2, Bool.false_eq_true,
        if_false, if_true]
      rw [ih h.2]

theorem nodup_append_single (l : List String) (a : String) (h : l.Nodup) (ha : a ∉ l) :
    (l ++ [a]).Nodup := by
  induction l with
  | nil => simp
  | cons x l ih =>
    rw [List.nodup_cons] at h
    simp only [List.mem_cons, not_or] at ha
    rw [List.cons_append, List.nodup_cons]
    refine ⟨?_, ih h.2 ha.2⟩
    simp only [List.mem_append, List.mem_singleton, not_or]
    exact ⟨h.1, fun e => ha.1 e.symm⟩

theorem mapHas_delete_self {α : Type} (m : List (String × α)) (k : String) :
    mapHas (mapDelete m k) k = false := by
  induction m with
  | nil => rfl
  | cons p m ih =>
    cases h : (p.1 != k) with
    | false => simp [mapDelete, List.filter_cons, h] at ih ⊢; exact ih
    | true =>
      have hb : (p.1 == k) = false := by
        cases hb : (p.1 == k) <;> simp [bne, hb] at h ⊢
      simp only [mapDelete, mapHas, List.filter_cons, List.any, h, hb, if_true,
        Bool.false_or] at ih ⊢
      exact ih

theorem filter_idem {α : Type} (p : α → Bool) (l : List α) :
    (l.filter p).filter p = l.filter p := by
  induction l with
  | nil => rfl
  | cons a l ih =>
    cases h : p a <;> simp [List.filter_cons, h, ih]

theorem not_mem_erase_self (l : List String) (k : String) (h : l.Nodup) :
    k ∉ l.erase k := by
  rw [erase_eq_filter_ne l k h]
  intro hm
  have := (List.mem_filter.1 hm).2
  simp at this

theorem filter_pair_map {α : Type} (f : SSETransport → α) (k : String) (ts : List SSETransport) :
    (ts.map (fun t => (t.sessionId, f t))).filter (fun p => p.1 != k) =
      (ts.filter (fun t => t.sessionId != k)).map (fun t => (t.sessionId, f t)) := by
  induction ts with
  | nil => rfl
  | cons t ts ih =>
    cases h : (t.sessionId != k) <;> simp [List.filter_cons, h, ih]

theorem map_sessionId_filter (k : String) (ts : List SSETransport) :
    (ts.filter (fun t => t.sessionId != k)).map SSETransport.sessionId =
      (ts.map SSETransport.sessionId).filter (fun x => x != k) := by
  induction ts with
  | nil => rfl
  | cons t ts ih =>
    cases h : (t.sessionId != k) <;> simp [List.filter_cons, h, ih]

theorem mapKeys_pair_map {α : Type} (f : SSETransport → α) (ts : List SSETransport) :
    mapKeys (ts.map (fun t => (t.sessionId, f t))) = ts.map SSETransport.sessionId := by
  simp [mapKeys, List.map_map]

theorem getD_last_mem (l : List String) (h : l ≠ []) :
    l.getD (l.length - 1) "" ∈ l := by
  have hl : 0 < l.length := List.length_pos.2 h
  have hlt : l.length - 1 < l.length := Nat.sub_lt hl Nat.one_pos
  rw [List.getD_eq_getElem l "" hlt]
  exact List.getElem_mem hlt

/-! Lemmas about the session store. -/

theorem storeInv_empty : storeInv emptyStore := by decide

theorem mapHas_transports_eq_false (s : SessionStore) (k : String) (h : storeInv s)
    (hk : k ∉ s.sessionOrder) : mapHas s.transports k = false :=
  (mapHas_eq_false_iff _ _).2 (fun hm => hk (h.1 ▸ hm))

theorem mapHas_servers_eq_false (s : SessionStore) (k : String) (h : storeInv s)
    (hk : k ∉ s.sessionOrder) : mapHas s.servers k = false :=
  (mapHas_eq_false_iff _ _).2 (fun hm => hk (h.2.1 ▸ hm))

theorem storeInv_storeSession (s : SessionStore) (t : SSETransport) (h : storeInv s)
    (hf : t.sessionId ∉ s.sessionOrder) : storeInv (storeSession s t) := by
  obtain ⟨h1, h2, h3⟩ := h
  refine ⟨?_, ?_, nodup_append_single _ _ h3 hf⟩
  · rw [storeSession]
    rw [mapSet_fresh _ _ _ (mapHas_transports_eq_false s t.sessionId ⟨h1, h2, h3⟩ hf)]
    rw [mapKeys_append_single, h1]
  · rw [storeSession]
    rw [mapSet_fresh _ _ _ (mapHas_servers_eq_false s t.sessionId ⟨h1, h2, h3⟩ hf)]
    rw [mapKeys_append_single, h2]

theorem storeInv_cleanupSession (s : SessionStore) (id : String) (h : storeInv s) :
    storeInv (cleanupSession s id) := by
  obtain ⟨h1, h2, h3⟩ := h
  refine ⟨?_, ?_, ?_⟩
  · show mapKeys (mapDelete s.transports id) = s.sessionOrder.erase id
    rw [mapKeys_delete, h1, erase_eq_filter_ne _ _ h3]
  · show mapKeys (mapDelete s.servers id) = s.sessionOrder.erase id
    rw [mapKeys_delete, h2, erase_eq_filter_ne _ _ h3]
  · show (s.sessionOrder.erase id).Nodup
    rw [erase_eq_filter_ne _ _ h3]
    exact h3.filter _

theorem storeInv_applyOps (ops : List StoreOp) :
    ∀ (s : SessionStore), storeInv s → validOps s ops = true → storeInv (applyOps s ops) := by
  induction ops with
  | nil => intro s h _; simpa [applyOps] using h
  | cons op rest ih =>
    intro s h hv
    cases op with
    | store t =>
      simp only [validOps, Bool.and_eq_true, Bool.not_eq_true'] at hv
      have hf : t.sessionId ∉ s.sessionOrder := by
        intro hm
        have : mapHas s.transports t.sessionId = true :=
          (mapHas_iff_mem _ _).2 (h.1.symm ▸ hm)
        rw [this] at hv
        exact absurd hv.1 (by simp)
      show storeInv (applyOps (storeSession s t) rest)
      exact ih _ (storeInv_storeSession s t h hf) hv.2
    | cleanup id =>
      simp only [validOps] at hv
      show storeInv (applyOps (cleanupSession s id) rest)
      exact ih _ (storeInv_cleanupSession s id h) hv

theorem cleanupSession_idem (s : SessionStore) (id : String) (h : storeInv s) :
    cleanupSession (cleanupSession s id) id = cleanupSession s id := by
  obtain ⟨h1, h2, h3⟩ := h
  have ht : mapDelete (mapDelete s.transports id) id = mapDelete s.transports id :=
    filter_idem _ _
  have hs : mapDelete (mapDelete s.servers id) id = mapDelete s.servers id :=
    filter_idem _ _
  have ho : (s.sessionOrder.erase id).erase id = s.sessionOrder.erase id :=
    List.erase_of_not_mem (not_mem_erase_self _ _ h3)
  simp [cleanupSession, ht, hs, ho]

theorem applyOps_stores (ts : List SSETransport) :
    ∀ (s : SessionStore), storeInv s → (∀ t ∈ ts, t.sessionId ∉ s.sessionOrder) →
      (ts.map SSETransport.sessionId).Nodup →
      applyOps s (ts.map StoreOp.store) =
        { transports := s.transports ++ ts.map (fun t => (t.sessionId, t))
          servers := s.servers ++ ts.map (fun t => (t.sessionId, ()))
          sessionOrder := s.sessionOrder ++ ts.map SSETransport.sessionId } := by
  induction ts with
  | nil => intro s _ _ _; simp [applyOps]
  | cons t ts ih =>
    intro s hinv hfresh hnd
    have hf : t.sessionId ∉ s.sessionOrder := hfresh t (List.mem_cons_self _ _)
    have hstep : storeSession s t =
        { transports := s.transports ++ [(t.sessionId, t)]
          servers := s.servers ++ [(t.sessionId, ())]
          sessionOrder := s.sessionOrder ++ [t.sessionId] } := by
      rw [storeSession]
      rw [mapSet_fresh _ _ _ (mapHas_transports_eq_false s t.sessionId hinv hf)]
      rw [mapSet_fresh _ _ _ (mapHas_servers_eq_false s t.sessionId hinv hf)]
    simp only [List.map_cons, List.nodup_cons] at hnd
    have hfresh2 : ∀ u ∈ ts, u.sessionId ∉ s.sessionOrder ++ [t.sessionId] := by
      intro u hu
      simp only [List.mem_append, List.mem_singleton, not_or]
      refine ⟨hfresh u (List.mem_cons_of_mem _ hu), ?_⟩
      intro he
      exact hnd.1 (he ▸ List.mem_map_of_mem SSETransport.sessionId hu)
    have hrec := ih (storeSession s t)
      (storeInv_storeSession s t hinv hf)
      (by rw [hstep]; exact hfresh2) hnd.2
    show applyOps (storeSession s t) (ts.map StoreOp.store) = _
    rw [hrec, hstep]
    simp [List.append_assoc]

theorem applyOps_cleanups (ids : List String) :
    ∀ (ts : List SSETransport), (ts.map SSETransport.sessionId).Nodup →
      ids.Perm (ts.map SSETransport.sessionId) →
      applyOps (canonicalStore ts) (ids.map StoreOp.cleanup) = emptyStore := by
  induction ids with
  | nil =>
    intro ts _ hp
    have hmap : ts.map SSETransport.sessionId = [] := hp.symm.eq_nil
    have hts : ts = [] := List.map_eq_nil_iff.1 hmap
    subst hts
    rfl
  | cons id ids ih =>
    intro ts hnd hp
    have hmem : id ∈ ts.map SSETransport.sessionId := hp.subset (List.mem_cons_self _ _)
    have hstep : cleanupSession (canonicalStore ts) id =
        canonicalStore (ts.filter (fun t => t.sessionId != id)) := by
      show SessionStore.mk _ _ _ = SessionStore.mk _ _ _
      rw [show mapDelete ((canonicalStore ts).transports) id =
            (ts.filter (fun t => t.sessionId != id)).map (fun t => (t.sessionId, t)) from
          filter_pair_map (fun t => t) id ts]
      rw [show mapDelete ((canonicalStore ts).servers) id =
            (ts.filter (fun t => t.sessionId != id)).map (fun t => (t.sessionId, ())) from
          filter_pair_map (fun _ => ()) id ts]
      rw [show ((canonicalStore ts).sessionOrder).erase id =
            (ts.filter (fun t => t.sessionId != id)).map SSETransport.sessionId from by
          rw [map_sessionId_filter]
          exact erase_eq_filter_ne _ _ hnd]
    have hperm : ids.Perm ((ts.filter (fun t => t.sessionId != id)).map SSETransport.sessionId) := by
      rw [map_sessionId_filter, ← erase_eq_filter_ne _ _ hnd]
      exact (hp.trans (List.perm_cons_erase hmem)).cons_inv
    have hnd2 : ((ts.filter (fun t => t.sessionId != id)).map SSETransport.sessionId).Nodup := by
      rw [map_sessionId_filter]
      exact hnd.filter _
    show applyOps (cleanupSession (canonicalStore ts) id) (ids.map StoreOp.cleanup) = emptyStore
    rw [hstep]
    exact ih _ hnd2 hperm

/-! Further helper lemmas used by the claim theorems. -/

theorem execTool_eq_none_of_unknown (env : ToolEnv) (name : String) (args : ToolArguments)
    (h : name ∉ (["maps_geocode", "maps_reverse_geocode", "maps_render"] : List String)) :
    execTool env name args = none := by
  simp only [List.mem_cons, List.not_mem_nil, or_false, not_or] at h
  obtain ⟨h1, h2, h3⟩ := h
  simp [execTool, h1, h2, h3]

theorem handleToolCall_shape (env : ToolEnv) (msg : RpcRequest) :
    (handleToolCall env msg).id = msg.id ∧ (handleToolCall env msg).error = none ∧
      (handleToolCall env msg).result.isSome = true := by
  cases hx : execTool env msg.params.name msg.params.arguments with
  | none => simp [handleToolCall, hx, sendJsonResponse]
  | some r =>
    cases r with
    | ok v => simp [handleToolCall, hx, sendJsonResponse]
    | error e => simp [handleToolCall, hx, sendJsonResponse]

theorem filter_getD_eq_filterMap (l : List (Option String)) :
    (l.filter (fun part => !(part == none) && !(part == some ""))).map (fun p => p.getD "") =
      l.filterMap (fun part =>
        match part with
        | none => none
        | some s => if s = "" then none else some s) := by
  induction l with
  | nil => rfl
  | cons o l ih =>
    cases o with
    | none => simpa [List.filter_cons, List.filterMap_cons] using ih
    | some s =>
      by_cases hs : s = ""
      · subst hs
        simpa [List.filter_cons, List.filterMap_cons] using ih
      · have h1 : ((some s == some "") : Bool) = false := by
          rw [beq_eq_false_iff_ne]
          simp [hs]
        simp [List.filter_cons, List.filterMap_cons, h1, hs, ih]

/-! The claim theorems. -/

/-- Claim C1, counterexample: with two sessions open and no explicit session
id, the most recently created session is the one with id b and it is stored,
yet findTransport of HttpTransport returns absent instead of that session. -/
theorem findTransport_multi_session_counterexample :
    mapGet twoSessionStore.transports "b" = some { sessionId := "b" } ∧
    twoSessionStore.sessionOrder.getD (twoSessionStore.sessionOrder.length - 1) "" = "b" ∧
    findTransport twoSessionStore none = none := by decide

/-- Claim C1 (amended): with no explicit session id, findTransport of
HttpTransport returns absent with zero open sessions, the sole session with
exactly one, and absent again with more than one; the legacy server-sse
fallback returns absent, the sole session, and the most recently created
session respectively. -/
theorem fallback_resolution_amended (s : SessionStore) (h : storeInv s) :
    (s.sessionOrder = [] →
      findTransport s none = none ∧ legacyResolveTransport s none = none) ∧
    (∀ a, s.sessionOrder = [a] →
      ∃ t, mapGet s.transports a = some t ∧
        findTransport s none = some t ∧ legacyResolveTransport s none = some t) ∧
    (2 ≤ s.sessionOrder.length →
      findTransport s none = none ∧
      ∃ t, mapGet s.transports (s.sessionOrder.getD (s.sessionOrder.length - 1) "") = some t ∧
        legacyResolveTransport s none = some t) := by
  refine ⟨?_, ?_, ?_⟩
  · intro h0
    constructor
    · simp [findTransport, strTruthy, h0]
    · simp [legacyResolveTransport, strTruthy, h0]
  · intro a ha
    have hmem : a ∈ s.sessionOrder := by rw [ha]; exact List.mem_cons_self _ _
    have hhas : mapHas s.transports a = true := (mapHas_iff_mem _ _).2 (h.1.symm ▸ hmem)
    have hsome : (mapGet s.transports a).isSome = true := by rw [mapGet_isSome, hhas]
    obtain ⟨t, ht⟩ := Option.isSome_iff_exists.1 hsome
    refine ⟨t, ht, ?_, ?_⟩
    · simp [findTransport, strTruthy, ha]
      exact ht
    · simp [legacyResolveTransport, strTruthy, ha]
      exact ht
  · intro h2
    have hne : s.sessionOrder ≠ [] := by
      intro h0
      rw [h0] at h2
      simp at h2
    have hlast : s.sessionOrder.getD (s.sessionOrder.length - 1) "" ∈ s.sessionOrder :=
      getD_last_mem _ hne
    have hhas : mapHas s.transports (s.sessionOrder.getD (s.sessionOrder.length - 1) "") = true :=
      (mapHas_iff_mem _ _).2 (h.1.symm ▸ hlast)
    have hsome : (mapGet s.transports
        (s.sessionOrder.getD (s.sessionOrder.length - 1) "")).isSome = true := by
      rw [mapGet_isSome, hhas]
    obtain ⟨t, ht⟩ := Option.isSome_iff_exists.1 hsome
    have hlen1 : s.sessionOrder.length ≠ 1 := by omega
    have hgt : s.sessionOrder.length > 1 := by omega
    refine ⟨?_, t, ht, ?_⟩
    · simp [findTransport, strTruthy, hlen1]
    · rw [List.getD_eq_getElem?_getD] at ht
      simp [legacyResolveTransport, strTruthy, hlen1, hgt]
      exact ht

/-- Closed instance of the amended C1 statement at a concrete two-session
store. -/
theorem fallback_resolution_amended_witness :
    findTransport twoSessionStore none = none ∧
    (legacyResolveTransport twoSessionStore none).isSome = true := by
  obtain ⟨-, -, h2⟩ := fallback_resolution_amended twoSessionStore (by decide)
  obtain ⟨h3, t, ht, hl⟩ := h2 (by decide)
  exact ⟨h3, by simp [hl]⟩

/-- Claim C2: a tools/call with a name outside the catalog, and a tools/call
during which the handling layer raises, both produce a success envelope whose
content is an explanatory message and whose error marker is set, on the
stateless dispatch path and in the createMCPServer handler alike; no
protocol-level error is produced. -/
theorem toolCall_errors_in_band (env : ToolEnv) (msg : RpcRequest) :
    (msg.params.name ∉ (["maps_geocode", "maps_reverse_geocode", "maps_render"] : List String) →
      handleToolCall env msg =
        { jsonrpc := "2.0", id := msg.id
          result := some (RpcResult.callResult
            [ContentItem.text ("Unknown tool: " ++ msg.params.name)] true)
          error := none } ∧
      serverCallToolHandler env msg.params.name msg.params.arguments =
        { content := [ContentItem.text ("Unknown tool: " ++ msg.params.name)]
          isError := true }) ∧
    (∀ e, execTool env msg.params.name msg.params.arguments = some (Except.error e) →
      handleToolCall env msg =
        { jsonrpc := "2.0", id := msg.id
          result := some (RpcResult.callResult [ContentItem.text ("Tool error: " ++ e)] true)
          error := none } ∧
      serverCallToolHandler env msg.params.name msg.params.arguments =
        { content := [ContentItem.text ("Error: " ++ e)], isError := true }) := by
  constructor
  · intro h
    have hn := execTool_eq_none_of_unknown env msg.params.name msg.params.arguments h
    constructor
    · simp [handleToolCall, hn, sendJsonResponse]
    · simp [serverCallToolHandler, hn]
  · intro e he
    constructor
    · simp [handleToolCall, he, sendJsonResponse]
    · simp [serverCallToolHandler, he]

/-- Closed instance of C2: an unknown tool name and a raising collaborator
both yield in-band errors. -/
theorem toolCall_errors_in_band_witness :
    handleToolCall defaultEnv unknownToolMsg =
      { jsonrpc := "2.0", id := some (RpcId.num 7)
        result := some (RpcResult.callResult [ContentItem.text "Unknown tool: bogus"] true)
        error := none } ∧
    serverCallToolHandler errorEnv "maps_geocode" {} =
      { content := [ContentItem.text "Error: boom"], isError := true } := by
  have h1 := ((toolCall_errors_in_band defaultEnv unknownToolMsg).1 (by decide)).1
  have h2 := ((toolCall_errors_in_band errorEnv geocodeCallMsg).2 "boom" rfl).2
  constructor
  · rw [h1]
    decide
  · rw [show serverCallToolHandler errorEnv "maps_geocode" {} =
        serverCallToolHandler errorEnv geocodeCallMsg.params.name
          geocodeCallMsg.params.arguments from rfl, h2]
    decide

/-- Claim C3: every dispatched method other than the three recognized ones is
answered with a protocol-level error envelope, code -32601, whose data names
the offending method, and with no result field. -/
theorem unknown_method_protocol_error (env : ToolEnv) (msg : RpcRequest)
    (h : msg.method ∉ (["initialize", "tools/list", "tools/call"] : List String)) :
    handleStreamableHttpPost env msg =
      { jsonrpc := "2.0", id := some (idOrNull msg.id), result := none
        error := some { code := -32601, message := "Method not found"
                        data := some (ErrorData.methodName msg.method) } } := by
  simp only [List.mem_cons, List.not_mem_nil, or_false, not_or] at h
  obtain ⟨h1, h2, h3⟩ := h
  simp [handleStreamableHttpPost, h1, h2, h3, sendJsonError]

/-- Closed instance of C3 at a concrete unrecognized method. -/
theorem unknown_method_protocol_error_witness :
    handleStreamableHttpPost defaultEnv
        { id := some (RpcId.num 3), method := "nope", params := { name := "", arguments := {} } } =
      { jsonrpc := "2.0", id := some (RpcId.num 3), result := none
        error := some { code := -32601, message := "Method not found"
                        data := some (ErrorData.methodName "nope") } } := by
  rw [unknown_method_protocol_error defaultEnv _ (by decide)]
  decide

/-- Claim C4: after any valid operation sequence from the empty store (valid
meaning each stored transport carries a fresh SDK-generated id), the ids in
the transports map are exactly the ids in the order sequence; removing an id
a second time leaves the store unchanged; and storing any duplicate-free
batch of sessions and then removing them in any order empties the store. -/
theorem session_store_consistency (ops : List StoreOp)
    (hv : validOps emptyStore ops = true) :
    (∀ id, mapHas (applyOps emptyStore ops).transports id = true ↔
        id ∈ (applyOps emptyStore ops).sessionOrder) ∧
    (∀ id, cleanupSession (cleanupSession (applyOps emptyStore ops) id) id =
        cleanupSession (applyOps emptyStore ops) id) ∧
    (∀ (ts : List SSETransport) (ids : List String),
        (ts.map SSETransport.sessionId).Nodup →
        ids.Perm (ts.map SSETransport.sessionId) →
        applyOps emptyStore (ts.map StoreOp.store ++ ids.map StoreOp.cleanup) = emptyStore) := by
  have hinv := storeInv_applyOps ops emptyStore storeInv_empty hv
  refine ⟨?_, ?_, ?_⟩
  · intro id
    rw [mapHas_iff_mem, hinv.1]
  · intro id
    exact cleanupSession_idem _ id hinv
  · intro ts ids hnd hp
    have key : applyOps emptyStore (ts.map StoreOp.store ++ ids.map StoreOp.cleanup) =
        applyOps (applyOps emptyStore (ts.map StoreOp.store)) (ids.map StoreOp.cleanup) := by
      simp [applyOps, List.foldl_append]
    have hstores : applyOps emptyStore (ts.map StoreOp.store) = canonicalStore ts := by
      rw [applyOps_stores ts emptyStore storeInv_empty (by intro t _; simp [emptyStore]) hnd]
      simp [emptyStore, canonicalStore]
    rw [key, hstores]
    exact applyOps_cleanups ids ts hnd hp

/-- Closed instance of C4: a store-then-remove sequence keeps the id sets in
step, and a two-session store emptied in reverse creation order is empty. -/
theorem session_store_consistency_witness :
    (mapHas (applyOps emptyStore
        [StoreOp.store { sessionId := "a" }, StoreOp.cleanup "a"]).transports "a" = true ↔
      "a" ∈ (applyOps emptyStore
        [StoreOp.store { sessionId := "a" }, StoreOp.cleanup "a"]).sessionOrder) ∧
    applyOps emptyStore
        ([StoreOp.store { sessionId := "a" }, StoreOp.store { sessionId := "b" }] ++
          [StoreOp.cleanup "b", StoreOp.cleanup "a"]) = emptyStore := by
  have h := session_store_consistency
    [StoreOp.store { sessionId := "a" }, StoreOp.cleanup "a"] (by decide)
  refine ⟨h.1 "a", ?_⟩
  exact h.2.2 [{ sessionId := "a" }, { sessionId := "b" }] ["b", "a"] (by decide) (by decide)

/-- Claim C5, counterexample: a POST to the unified endpoint with no session
id header while exactly one session is open is routed to that session's
message handler, not answered statelessly by the dispatcher. -/
theorem mcpPost_no_header_counterexample :
    handleMcpPost defaultEnv oneSessionStore none none (Except.ok pingRequest) =
      PostOutcome.routed { sessionId := "a" } ∧
    handleMcpPost defaultEnv oneSessionStore none none (Except.ok pingRequest) ≠
      PostOutcome.stateless (handleMcpPostStateless defaultEnv (Except.ok pingRequest)) := by
  decide

/-- Claim C5 (amended): a truthy session id header naming a stored session
routes the message to that session; a truthy header with no stored match is
answered statelessly; with no truthy header the message is routed to the sole
open session when exactly one is open, and only otherwise is the body
answered statelessly by the dispatcher. -/
theorem mcpPost_routing_amended (env : ToolEnv) (s : SessionStore)
    (mcpId xId : Option String) (body : Except String RpcRequest) (h : storeInv s) :
    (∀ t, strTruthy (headerSessionId mcpId xId) = true →
      mapGet s.transports ((headerSessionId mcpId xId).getD "") = some t →
      handleMcpPost env s mcpId xId body = PostOutcome.routed t) ∧
    (strTruthy (headerSessionId mcpId xId) = true →
      mapGet s.transports ((headerSessionId mcpId xId).getD "") = none →
      handleMcpPost env s mcpId xId body =
        PostOutcome.stateless (handleMcpPostStateless env body)) ∧
    (strTruthy (headerSessionId mcpId xId) = false → s.sessionOrder.length = 1 →
      ∃ t, mapGet s.transports (s.sessionOrder.getD 0 "") = some t ∧
        handleMcpPost env s mcpId xId body = PostOutcome.routed t) ∧
    (strTruthy (headerSessionId mcpId xId) = false → s.sessionOrder.length ≠ 1 →
      handleMcpPost env s mcpId xId body =
        PostOutcome.stateless (handleMcpPostStateless env body)) := by
  refine ⟨?_, ?_, ?_, ?_⟩
  · intro t htr hget
    simp [handleMcpPost, findTransport, htr, hget]
  · intro htr hget
    simp [handleMcpPost, findTransport, htr, hget]
  · intro htr hlen
    obtain ⟨a, ha⟩ := List.length_eq_one.1 hlen
    have hmem : a ∈ s.sessionOrder := by rw [ha]; exact List.mem_cons_self _ _
    have hhas : mapHas s.transports a = true := (mapHas_iff_mem _ _).2 (h.1.symm ▸ hmem)
    have hsome : (mapGet s.transports a).isSome = true := by rw [mapGet_isSome, hhas]
    obtain ⟨t, ht⟩ := Option.isSome_iff_exists.1 hsome
    refine ⟨t, ?_, ?_⟩
    · rw [ha]
      exact ht
    · simp [handleMcpPost, findTransport, htr, hlen, ha]
      rw [ht]
  · intro htr hlen
    simp [handleMcpPost, findTransport, htr, hlen]

/-- Closed instance of the amended C5 statement: an explicit session id
routes to the named session even with several sessions open. -/
theorem mcpPost_routing_amended_witness :
    handleMcpPost defaultEnv twoSessionStore (some "a") none (Except.error "bad json") =
      PostOutcome.routed { sessionId := "a" } :=
  (mcpPost_routing_amended defaultEnv twoSessionStore (some "a") none
      (Except.error "bad json") (by decide)).1
    { sessionId := "a" } (by decide) (by decide)

/-- Claim C6: a DELETE naming a stored session id retires that session and
answers 200; a DELETE with no session id header, or naming an id not in the
store, answers 404 and leaves the store untouched. -/
theorem mcpDelete_behavior (s : SessionStore) (sid : Option String) (h : storeInv s) :
    (∀ k, sid = some k → k ≠ "" → mapHas s.transports k = true →
      (handleMcpDelete s sid).status = 200 ∧
      (handleMcpDelete s sid).store = cleanupSession s k ∧
      mapHas (handleMcpDelete s sid).store.transports k = false ∧
      k ∉ (handleMcpDelete s sid).store.sessionOrder) ∧
    (sid = none →
      (handleMcpDelete s sid).status = 404 ∧ (handleMcpDelete s sid).store = s) ∧
    (∀ k, sid = some k → mapHas s.transports k = false →
      (handleMcpDelete s sid).status = 404 ∧ (handleMcpDelete s sid).store = s) := by
  refine ⟨?_, ?_, ?_⟩
  · intro k hk hne hhas
    subst hk
    have htr : strTruthy (some k) = true := by simp [strTruthy, hne]
    have hst : (handleMcpDelete s (some k)).store = cleanupSession s k := by
      simp [handleMcpDelete, htr, hhas]
    refine ⟨by simp [handleMcpDelete, htr, hhas], hst, ?_, ?_⟩
    · rw [hst]
      exact mapHas_delete_self _ _
    · rw [hst]
      exact not_mem_erase_self _ _ h.2.2
  · intro hk
    subst hk
    constructor
    · simp [handleMcpDelete, strTruthy]
    · simp [handleMcpDelete, strTruthy]
  · intro k hk hhas
    subst hk
    constructor
    · simp [handleMcpDelete, hhas]
    · simp [handleMcpDelete, hhas]

/-- Closed instance of C6: deleting a stored id answers 200 and removes it;
deleting an unknown id answers 404 and leaves the store as it was. -/
theorem mcpDelete_behavior_witness :
    (handleMcpDelete twoSessionStore (some "b")).status = 200 ∧
    (handleMcpDelete twoSessionStore (some "b")).store = cleanupSession twoSessionStore "b" ∧
    (handleMcpDelete twoSessionStore (some "c")).status = 404 ∧
    (handleMcpDelete twoSessionStore (some "c")).store = twoSessionStore := by
  obtain ⟨h200, hst, -, -⟩ :=
    (mcpDelete_behavior twoSessionStore (some "b") (by decide)).1 "b" rfl (by decide) (by decide)
  have h404 :=
    (mcpDelete_behavior twoSessionStore (some "c") (by decide)).2.2 "c" rfl (by decide)
  exact ⟨h200, hst, h404.1, h404.2⟩

/-- Claim C7, counterexample: a request with the valid correlation id 0
dispatched to an unknown method is answered with id null, not id 0, because
the error path replaces any falsy id by null. -/
theorem stateless_id_zero_counterexample :
    (handleStreamableHttpPost defaultEnv zeroIdMsg).id ≠ some (RpcId.num 0) ∧
    (handleStreamableHttpPost defaultEnv zeroIdMsg).id = some RpcId.null := by
  decide

/-- Claim C7 (amended): every stateless-dispatch response carries exactly one
of a result field or an error field; a result response echoes the request id;
an error response carries the request id when that id is truthy and JSON null
otherwise. -/
theorem stateless_response_id_amended (env : ToolEnv) (msg : RpcRequest) (x : RpcId)
    (h : msg.id = some x) :
    (((handleStreamableHttpPost env msg).result.isSome = true ∧
        (handleStreamableHttpPost env msg).error = none) ∨
      ((handleStreamableHttpPost env msg).result = none ∧
        (handleStreamableHttpPost env msg).error.isSome = true)) ∧
    ((handleStreamableHttpPost env msg).result.isSome = true →
      (handleStreamableHttpPost env msg).id = some x) ∧
    ((handleStreamableHttpPost env msg).error.isSome = true →
      (handleStreamableHttpPost env msg).id = some (if x.truthy then x else RpcId.null)) := by
  by_cases h1 : msg.method = "initialize"
  · simp [handleStreamableHttpPost, h1, sendJsonResponse, h]
  · by_cases h2 : msg.method = "tools/list"
    · simp [handleStreamableHttpPost, h1, h2, sendJsonResponse, h]
    · by_cases h3 : msg.method = "tools/call"
      · have hs := handleToolCall_shape env msg
        have hd : handleStreamableHttpPost env msg = handleToolCall env msg := by
          simp [handleStreamableHttpPost, h1, h2, h3]
        rw [hd]
        refine ⟨Or.inl ⟨hs.2.2, hs.2.1⟩, fun _ => by rw [hs.1, h], fun he => ?_⟩
        rw [hs.2.1] at he
        simp at he
      · simp [handleStreamableHttpPost, h1, h2, h3, sendJsonError, idOrNull, h]

/-- Closed instance of the amended C7 statement on the success path. -/
theorem stateless_response_id_amended_witness :
    (handleStreamableHttpPost defaultEnv pingRequest).id = some (RpcId.num 1) :=
  (stateless_response_id_amended defaultEnv pingRequest (RpcId.num 1) rfl).2.1 (by decide)

/-- Claim C8: the tool catalog lists exactly maps_geocode,
maps_reverse_geocode and maps_render in that order, and every binding - the
stateless dispatcher, the createMCPServer handler, and the discovery endpoint
- answers a tools listing with exactly that catalog. -/
theorem tools_list_deterministic :
    MAPS_TOOLS.map Tool.name = ["maps_geocode", "maps_reverse_geocode", "maps_render"] ∧
    (∀ (env : ToolEnv) (id : Option RpcId) (p : CallParams),
      handleStreamableHttpPost env { id := id, method := "tools/list", params := p } =
        { jsonrpc := "2.0", id := id
          result := some (RpcResult.toolsResult MAPS_TOOLS), error := none }) ∧
    serverListTools = MAPS_TOOLS ∧ toolsDiscoveryBody = MAPS_TOOLS := by
  refine ⟨rfl, ?_, rfl, rfl⟩
  intro env id p
  rfl

/-- Claim C9: a stateless POST whose body the JSON parser rejects is answered
with a protocol-level error envelope, code -32603, whose data carries the
parser diagnostic. -/
theorem malformed_body_internal_error (env : ToolEnv) (s : SessionStore)
    (mcpId xId : Option String) (e : String)
    (h : findTransport s (headerSessionId mcpId xId) = none) :
    handleMcpPost env s mcpId xId (Except.error e) =
      PostOutcome.stateless
        { jsonrpc := "2.0", id := some RpcId.null, result := none
          error := some { code := -32603, message := "Internal error"
                          data := some (ErrorData.diagnostic e) } } := by
  simp [handleMcpPost, h, handleMcpPostStateless, sendJsonError, idOrNull]

/-- Closed instance of C9 at an empty store and a concrete diagnostic. -/
theorem malformed_body_internal_error_witness :
    handleMcpPost defaultEnv emptyStore none none (Except.error "Unexpected token") =
      PostOutcome.stateless
        { jsonrpc := "2.0", id := some RpcId.null, result := none
          error := some { code := -32603, message := "Internal error"
                          data := some (ErrorData.diagnostic "Unexpected token") } } :=
  malformed_body_internal_error defaultEnv emptyStore none none "Unexpected token" rfl

/-- Claim C10: the geocode query string handleGeocode sends upstream is the
comma-space join of house_number, street, district, city, state, country in
that fixed order, omitting undefined and empty components, and is a function
of those components alone. -/
theorem geocode_query_join (apiKey country lang : String)
    (state city district street house_number : Option String) :
    (handleGeocodeUrlParams apiKey country lang
        state city district street house_number).lookup "geocode" =
      some (specGeocodeQuery country state city district street house_number) ∧
    geocodeAddress country state city district street house_number =
      specGeocodeQuery country state city district street house_number := by
  have hq : geocodeAddress country state city district street house_number =
      specGeocodeQuery country state city district street house_number := by
    rw [geocodeAddress, specGeocodeQuery, geocodeAddressParts, filter_getD_eq_filterMap]
  refine ⟨?_, hq⟩
  simp [handleGeocodeUrlParams, List.lookup, hq]

end YandexMapsMcp
